import Mathlib

/-!
Shallow embedding of `src/main.py` ("Endless Rooftop Runner").

Conventions of the embedding:
* `pygame.Rect` becomes the `Rect` structure (integer origin and extent);
  `colliderect` is pygame's strict-overlap test (all game rects here have
  positive width and height, where the pygame zero-size special case never
  fires).
* Python floats (velocities, `dt`) are embedded as exact rationals `ℚ`;
  Python `int(...)` (truncation toward zero) is `pyInt`; Python `//` with a
  positive divisor (floor division) is `Int.ediv`.
* The pseudo-random source is embedded as a `Draws` record holding the values
  produced by the `random.randint` / `random.random()` calls of one
  `spawn_platform` call; theorems that need the `randint` contract
  (result within the requested closed interval) take it as a hypothesis.
  `random.randint lo hi` raising `ValueError` when `lo > hi` - the only
  fallible operation inside `spawn_platform`'s `try` block - is embedded as
  the `lo ≤ hi` branch test, the `except` handler as the else branch.
* The mutable game variables of `main` are gathered into `GameState`; each
  block of the per-tick loop body becomes a pure state-to-state function.
-/

namespace RooftopRunner

/-- `SCREEN_WIDTH` from main.py. -/
def SCREEN_WIDTH : Int := 800

/-- `SCREEN_HEIGHT` from main.py. -/
def SCREEN_HEIGHT : Int := 600

/-- `FPS` from main.py. -/
def FPS : Int := 60

/-- `GRAVITY = 0.8` from main.py, as an exact rational. -/
def GRAVITY : ℚ := 4/5

/-- `JUMP_POWER = -12.0` from main.py. -/
def JUMP_POWER : ℚ := -12

/-- `MAX_JUMPS` from main.py. -/
def MAX_JUMPS : Int := 2

/-- `PLATFORM_WIDTH` from main.py. -/
def PLATFORM_WIDTH : Int := 150

/-- `PLATFORM_HEIGHT` from main.py. -/
def PLATFORM_HEIGHT : Int := 10

/-- `PLATFORM_MIN_Y` from main.py. -/
def PLATFORM_MIN_Y : Int := 250

/-- `PLATFORM_MAX_Y` from main.py. -/
def PLATFORM_MAX_Y : Int := 400

/-- `PLATFORM_Y_DELTA` from main.py. -/
def PLATFORM_Y_DELTA : Int := 50

/-- `HORIZONTAL_GAP` from main.py. -/
def HORIZONTAL_GAP : Int := 180

/-- `SCROLL_SPEED = 5.0` from main.py. -/
def SCROLL_SPEED : ℚ := 5

/-- Width component of `OBSTACLE_SIZE = (30, 30)`. -/
def OBSTACLE_W : Int := 30

/-- Height component of `OBSTACLE_SIZE = (30, 30)`. -/
def OBSTACLE_H : Int := 30

/-- Width component of `COIN_SIZE = (20, 20)`. -/
def COIN_W : Int := 20

/-- Height component of `COIN_SIZE = (20, 20)`. -/
def COIN_H : Int := 20

/-- `COIN_OFFSET_ABOVE_ROOF` from main.py. -/
def COIN_OFFSET_ABOVE_ROOF : Int := 30

/-- `EDGE_PADDING` from main.py. -/
def EDGE_PADDING : Int := 20

/-- Python `int(q)` on a rational: truncation toward zero
(`Int.tdiv` truncates toward zero and `q.den > 0`). -/
def pyInt (q : ℚ) : Int := Int.tdiv q.num q.den

/-- A `pygame.Rect`: integer origin `(x, y)` and extent `(w, h)`. -/
structure Rect where
  x : Int
  y : Int
  w : Int
  h : Int
deriving DecidableEq

/-- `rect.right` in pygame: `x + w`. -/
def Rect.right (r : Rect) : Int := r.x + r.w

/-- `rect.bottom` in pygame: `y + h`. -/
def Rect.bottom (r : Rect) : Int := r.y + r.h

/-- `rect.top` in pygame: `y`. -/
def Rect.top (r : Rect) : Int := r.y

/-- `a.colliderect(b)` in pygame: strict overlap on both axes. -/
def Rect.colliderect (a b : Rect) : Bool :=
  decide (a.x < b.x + b.w) && decide (a.y < b.y + b.h) &&
  decide (b.x < a.x + a.w) && decide (b.y < a.y + a.h)

/-- The `Player` dataclass of main.py. `jump_count` is a Python `int`,
embedded as `Int` so that its lower bound is a provable fact rather than a
typing artifact. -/
structure Player where
  rect : Rect
  jump_power : ℚ := JUMP_POWER
  gravity : ℚ := GRAVITY
  y_velocity : ℚ := 0
  is_grounded : Bool := false
  jump_count : Int := 0
  max_jumps : Int := MAX_JUMPS
deriving DecidableEq

/-- The values drawn from `random` during one `spawn_platform` call:
`yPick` is the result of `random.randint` for the roof y (meaningful only
when the requested interval is nonempty), `obstacleRoll` is
`random.random() < OBSTACLE_CHANCE`, `obstacleOff` the obstacle's
`random.randint(EDGE_PADDING, PLATFORM_WIDTH - OBSTACLE_SIZE[0] - EDGE_PADDING)`,
and `coinRoll` / `coinOff` likewise for the coin. -/
structure Draws where
  yPick : Int
  obstacleRoll : Bool
  obstacleOff : Int
  coinRoll : Bool
  coinOff : Int
deriving DecidableEq

/-- The mutable game variables of `main`'s loop, gathered into one state. -/
structure GameState where
  player : Player
  platforms : List Rect
  obstacles : List Rect
  coins : List Rect
  last_platform_x : Int
  last_platform_y : Int
  score : Int
  game_started : Bool
deriving DecidableEq

/-- `spawn_platform` (main.py lines 104-142), acting on the three entity
lists it would mutate in place and returning them together with
`(next_spawn_x, new_last_platform_y)`. The `lo ≤ hi` test embeds whether
`random.randint(lo, hi)` succeeds; its `ValueError` (the only exception the
`try` block can raise) lands in the `except` branch, which returns
`(x + PLATFORM_WIDTH + HORIZONTAL_GAP, last_platform_y)` with the lists
untouched. -/
def spawn_platform (platforms obstacles coins : List Rect)
    (last_platform_y x : Int) (d : Draws) :
    (List Rect × List Rect × List Rect) × Int × Int :=
  let lo := max PLATFORM_MIN_Y (last_platform_y - PLATFORM_Y_DELTA)
  let hi := min PLATFORM_MAX_Y (last_platform_y + PLATFORM_Y_DELTA)
  if lo ≤ hi then
    let y := d.yPick
    let platforms1 := platforms ++ [Rect.mk x y PLATFORM_WIDTH PLATFORM_HEIGHT]
    let buffered := decide (Int.ediv SCREEN_WIDTH 4 < x)
    let obstacles1 :=
      if buffered && d.obstacleRoll then
        obstacles ++ [Rect.mk (x + d.obstacleOff) (y - OBSTACLE_H) OBSTACLE_W OBSTACLE_H]
      else obstacles
    let coins1 :=
      if buffered && d.coinRoll then
        coins ++ [Rect.mk (x + d.coinOff) (y - COIN_H - COIN_OFFSET_ABOVE_ROOF) COIN_W COIN_H]
      else coins
    ((platforms1, obstacles1, coins1), (x + PLATFORM_WIDTH + HORIZONTAL_GAP, y))
  else
    ((platforms, obstacles, coins), (x + PLATFORM_WIDTH + HORIZONTAL_GAP, last_platform_y))

/-- `initial_platform_x = SCREEN_WIDTH // 2 - PLATFORM_WIDTH // 2 = 325`. -/
def initial_platform_x : Int := Int.ediv SCREEN_WIDTH 2 - Int.ediv PLATFORM_WIDTH 2

/-- `initial_platform_y = int(SCREEN_HEIGHT * 0.7)`: the binary64 product
`600 * 0.7` rounds to exactly `420.0`, so this is `420`. -/
def initial_platform_y : Int := 420

/-- `reset_game` (main.py lines 144-174) as a state transformer: clears the
three lists, re-seeds the initial platform, re-positions the player on it,
chains one `spawn_platform` call, and packs the returned
`(last_platform_x, last_platform_y, score, started)` back into the state. -/
def reset_game (s : GameState) (d : Draws) : GameState :=
  let prect := s.player.rect
  let prect1 : Rect :=
    { prect with
        x := initial_platform_x + Int.ediv PLATFORM_WIDTH 2 - Int.ediv prect.w 2,
        y := initial_platform_y - prect.h }
  let player1 : Player :=
    { s.player with rect := prect1, y_velocity := 0, is_grounded := true, jump_count := 0 }
  let next_x := initial_platform_x + PLATFORM_WIDTH + HORIZONTAL_GAP
  let r := spawn_platform
    [Rect.mk initial_platform_x initial_platform_y PLATFORM_WIDTH PLATFORM_HEIGHT]
    [] [] initial_platform_y next_x d
  { player := player1, platforms := r.1.1, obstacles := r.1.2.1, coins := r.1.2.2,
    last_platform_x := r.2.1, last_platform_y := r.2.2, score := 0, game_started := false }

/-- The `K_SPACE` `KEYDOWN` handler (main.py lines 229-237). -/
def handleSpace (s : GameState) : GameState :=
  if !s.game_started then
    { s with game_started := true }
  else if s.player.jump_count < s.player.max_jumps then
    { s with player :=
        { s.player with
            y_velocity := s.player.jump_power,
            jump_count := s.player.jump_count + 1,
            is_grounded := false } }
  else s

/-- The landing `for`-loop with `break` (main.py lines 250-256): the player
record passed in is the state after this tick's move (`rect` already moved,
`is_grounded` already cleared, `y_velocity` already updated). -/
def landingLoop (p : Player) (old_bottom : Int) : List Rect → Player
  | [] => p
  | pl :: rest =>
      if p.rect.colliderect pl && decide (old_bottom ≤ pl.top) then
        { p with rect := { p.rect with y := pl.top - p.rect.h },
                 y_velocity := 0, is_grounded := true, jump_count := 0 }
      else landingLoop p old_bottom rest

/-- Gravity, movement and the landing check (main.py lines 241-256). -/
def movePhase (dt : ℚ) (s : GameState) : GameState :=
  let p := s.player
  let v1 := p.y_velocity + p.gravity * dt * (FPS : ℚ)
  let dy := v1 * dt * (FPS : ℚ)
  let old_bottom := p.rect.bottom
  let moved : Player :=
    { p with y_velocity := v1,
             rect := { p.rect with y := p.rect.y + pyInt dy },
             is_grounded := false }
  let p1 := if 0 < dy then landingLoop moved old_bottom s.platforms else moved
  { s with player := p1 }

/-- The world scroll (main.py lines 259-263). -/
def scrollPhase (dt : ℚ) (s : GameState) : GameState :=
  let sh := pyInt (SCROLL_SPEED * dt * (FPS : ℚ))
  let shift : Rect → Rect := fun r => { r with x := r.x - sh }
  { s with platforms := s.platforms.map shift,
           obstacles := s.obstacles.map shift,
           coins := s.coins.map shift,
           last_platform_x := s.last_platform_x - sh }

/-- The conditional spawn (main.py lines 266-269). -/
def spawnPhase (d : Draws) (s : GameState) : GameState :=
  if s.last_platform_x < SCREEN_WIDTH then
    let r := spawn_platform s.platforms s.obstacles s.coins s.last_platform_y s.last_platform_x d
    { s with platforms := r.1.1, obstacles := r.1.2.1, coins := r.1.2.2,
             last_platform_x := r.2.1, last_platform_y := r.2.2 }
  else s

/-- Off-screen pruning, `obj_list[:] = [item for item in obj_list if item.right > 0]`
(main.py lines 272-273). -/
def prunePhase (s : GameState) : GameState :=
  { s with platforms := s.platforms.filter (fun r => 0 < r.right),
           obstacles := s.obstacles.filter (fun r => 0 < r.right),
           coins := s.coins.filter (fun r => 0 < r.right) }

/-- Python `list.remove(v)`: delete the first element equal to `v`. In every
use below the element is present (the loop iterates over a snapshot of the
same list), so the `ValueError` case of `remove` is unreachable. -/
def removeFirst : List Rect → Rect → List Rect
  | [], _ => []
  | c :: rest, v => if c = v then rest else c :: removeFirst rest v

/-- The coin-collection loop (main.py lines 276-280): iterate over the
snapshot `coins[:]`, removing each overlapping coin from the live list and
bumping the score. -/
def coinLoop (prect : Rect) : List Rect → List Rect → Int → List Rect × Int
  | [], coins, score => (coins, score)
  | c :: rest, coins, score =>
      if prect.colliderect c then coinLoop prect rest (removeFirst coins c) (score + 1)
      else coinLoop prect rest coins score

/-- Coin collection as a state transformer. -/
def coinPhase (s : GameState) : GameState :=
  let r := coinLoop s.player.rect s.coins s.coins s.score
  { s with coins := r.1, score := r.2 }

/-- The obstacle-collision loop with `break` (main.py lines 283-289):
iterate over the snapshot `obstacles[:]`; the first overlap triggers
`reset_game` and stops. -/
def obstacleLoop (prect : Rect) (s : GameState) (d : Draws) : List Rect → GameState
  | [] => s
  | o :: rest =>
      if prect.colliderect o then reset_game s d
      else obstacleLoop prect s d rest

/-- Obstacle collision as a state transformer. -/
def obstaclePhase (d : Draws) (s : GameState) : GameState :=
  obstacleLoop s.player.rect s d s.obstacles

/-- The fall-off check (main.py lines 292-296). -/
def fellPhase (d : Draws) (s : GameState) : GameState :=
  if SCREEN_HEIGHT < s.player.rect.top then reset_game s d else s

/-- One `if game_started:` block of the main loop (main.py lines 239-296):
move, scroll, spawn, prune, coins, obstacles, fall-off, in source order.
`dS`, `dO`, `dF` are the random draws consumed by the spawn of this tick and
by the resets of the obstacle and fall-off phases, when those fire. -/
def startedTick (dt : ℚ) (dS dO dF : Draws) (s : GameState) : GameState :=
  if s.game_started then
    fellPhase dF (obstaclePhase dO (coinPhase (prunePhase
      (spawnPhase dS (scrollPhase dt (movePhase dt s))))))
  else s

/-! ### Helper lemmas about `spawn_platform` -/

/-- The success branch of `spawn_platform`: when the `randint` interval is
nonempty, the call appends the new platform (and conditionally an obstacle
and a coin) and returns the advanced frontier with the chosen y. -/
theorem spawn_platform_of_le (platforms obstacles coins : List Rect)
    (l x : Int) (d : Draws)
    (h : max PLATFORM_MIN_Y (l - PLATFORM_Y_DELTA) ≤
         min PLATFORM_MAX_Y (l + PLATFORM_Y_DELTA)) :
    spawn_platform platforms obstacles coins l x d =
      ((platforms ++ [Rect.mk x d.yPick PLATFORM_WIDTH PLATFORM_HEIGHT],
        if decide (Int.ediv SCREEN_WIDTH 4 < x) && d.obstacleRoll then
          obstacles ++ [Rect.mk (x + d.obstacleOff) (d.yPick - OBSTACLE_H) OBSTACLE_W OBSTACLE_H]
        else obstacles,
        if decide (Int.ediv SCREEN_WIDTH 4 < x) && d.coinRoll then
          coins ++ [Rect.mk (x + d.coinOff) (d.yPick - COIN_H - COIN_OFFSET_ABOVE_ROOF) COIN_W COIN_H]
        else coins),
       (x + PLATFORM_WIDTH + HORIZONTAL_GAP, d.yPick)) := by
  unfold spawn_platform
  simp only [h, if_true]

/-- The failure branch of `spawn_platform`: an empty `randint` interval
raises, the handler leaves the lists untouched and still advances the
frontier, echoing the unchanged previous y. -/
theorem spawn_platform_of_gt (platforms obstacles coins : List Rect)
    (l x : Int) (d : Draws)
    (h : ¬ max PLATFORM_MIN_Y (l - PLATFORM_Y_DELTA) ≤
         min PLATFORM_MAX_Y (l + PLATFORM_Y_DELTA)) :
    spawn_platform platforms obstacles coins l x d =
      ((platforms, obstacles, coins), (x + PLATFORM_WIDTH + HORIZONTAL_GAP, l)) := by
  unfold spawn_platform
  simp only [h, if_false]

/-! ### C1 -/

/-- C1: every `spawn_platform` call that appends a platform (the `randint`
contract hypotheses imply the drawn interval is nonempty, so the platform is
appended) chooses a y inside the global band `[PLATFORM_MIN_Y, PLATFORM_MAX_Y]`
and within `PLATFORM_Y_DELTA` of the previous platform's y; in particular for
`last_platform_y = 420` the y lies in `[370, 400]`. -/
theorem spawn_platform_y_within_band (platforms obstacles coins : List Rect)
    (last_platform_y x : Int) (d : Draws)
    (hlo : max PLATFORM_MIN_Y (last_platform_y - PLATFORM_Y_DELTA) ≤ d.yPick)
    (hhi : d.yPick ≤ min PLATFORM_MAX_Y (last_platform_y + PLATFORM_Y_DELTA)) :
    (spawn_platform platforms obstacles coins last_platform_y x d).1.1 =
      platforms ++ [Rect.mk x d.yPick PLATFORM_WIDTH PLATFORM_HEIGHT] ∧
    (spawn_platform platforms obstacles coins last_platform_y x d).2.2 = d.yPick ∧
    PLATFORM_MIN_Y ≤ d.yPick ∧ d.yPick ≤ PLATFORM_MAX_Y ∧
    |d.yPick - last_platform_y| ≤ PLATFORM_Y_DELTA ∧
    (last_platform_y = 420 → 370 ≤ d.yPick ∧ d.yPick ≤ 400) := by
  have hb := le_trans hlo hhi
  have h1 : PLATFORM_MIN_Y ≤ d.yPick := le_trans (le_max_left _ _) hlo
  have h2 : last_platform_y - PLATFORM_Y_DELTA ≤ d.yPick := le_trans (le_max_right _ _) hlo
  have h3 : d.yPick ≤ PLATFORM_MAX_Y := le_trans hhi (min_le_left _ _)
  have h4 : d.yPick ≤ last_platform_y + PLATFORM_Y_DELTA := le_trans hhi (min_le_right _ _)
  rw [spawn_platform_of_le platforms obstacles coins last_platform_y x d hb]
  refine ⟨rfl, rfl, h1, h3, ?_, ?_⟩
  · rw [abs_le]
    simp only [PLATFORM_Y_DELTA] at h2 h4 ⊢
    omega
  · intro h420
    simp only [PLATFORM_MIN_Y, PLATFORM_MAX_Y, PLATFORM_Y_DELTA, h420] at h1 h2 h3 h4
    omega

/-- Concrete witness for C1: previous y `420`, drawn y `380`. -/
theorem spawn_platform_y_within_band_witness :
    max PLATFORM_MIN_Y (420 - PLATFORM_Y_DELTA) ≤ (380 : Int) ∧
    (380 : Int) ≤ min PLATFORM_MAX_Y (420 + PLATFORM_Y_DELTA) ∧
    (PLATFORM_MIN_Y ≤ (Draws.mk 380 false 20 false 20).yPick ∧
     (Draws.mk 380 false 20 false 20).yPick ≤ PLATFORM_MAX_Y ∧
     |(Draws.mk 380 false 20 false 20).yPick - 420| ≤ PLATFORM_Y_DELTA ∧
     ((420 : Int) = 420 → 370 ≤ (Draws.mk 380 false 20 false 20).yPick ∧
        (Draws.mk 380 false 20 false 20).yPick ≤ 400)) :=
  ⟨by decide, by decide,
   (spawn_platform_y_within_band [] [] [] 420 655 (Draws.mk 380 false 20 false 20)
     (by decide) (by decide)).2.2⟩

/-! ### C6 -/

/-- C6: if the internal error fires inside `spawn_platform` (the `randint`
interval is empty, the one fallible point of its `try` block, reached before
anything is appended), the three collections are returned exactly as passed
in and the function still returns the advanced frontier
`x + PLATFORM_WIDTH + HORIZONTAL_GAP` paired with the unchanged previous y;
on the success path it returns the same advanced frontier paired with the
newly chosen y. -/
theorem spawn_platform_failure_policy (platforms obstacles coins : List Rect)
    (last_platform_y x : Int) (d : Draws) :
    (¬ max PLATFORM_MIN_Y (last_platform_y - PLATFORM_Y_DELTA) ≤
         min PLATFORM_MAX_Y (last_platform_y + PLATFORM_Y_DELTA) →
       spawn_platform platforms obstacles coins last_platform_y x d =
         ((platforms, obstacles, coins),
          (x + PLATFORM_WIDTH + HORIZONTAL_GAP, last_platform_y))) ∧
    (max PLATFORM_MIN_Y (last_platform_y - PLATFORM_Y_DELTA) ≤
         min PLATFORM_MAX_Y (last_platform_y + PLATFORM_Y_DELTA) →
       (spawn_platform platforms obstacles coins last_platform_y x d).2 =
         (x + PLATFORM_WIDTH + HORIZONTAL_GAP, d.yPick)) := by
  constructor
  · intro h
    exact spawn_platform_of_gt platforms obstacles coins last_platform_y x d h
  · intro h
    rw [spawn_platform_of_le platforms obstacles coins last_platform_y x d h]

/-- Concrete witness for C6: previous y `100` makes the interval
`[250, 150]` empty, so the call degrades; previous y `420` succeeds. -/
theorem spawn_platform_failure_policy_witness :
    (¬ max PLATFORM_MIN_Y ((100 : Int) - PLATFORM_Y_DELTA) ≤
        min PLATFORM_MAX_Y (100 + PLATFORM_Y_DELTA)) ∧
    spawn_platform [] [] [] 100 900 (Draws.mk 380 false 20 false 20) =
      (([], [], []), (900 + PLATFORM_WIDTH + HORIZONTAL_GAP, 100)) :=
  ⟨by decide,
   (spawn_platform_failure_policy [] [] [] 100 900 (Draws.mk 380 false 20 false 20)).1
     (by decide)⟩

/-! ### C7 -/

/-- The concrete entity of the C7 scenario whose right edge sits exactly at
`x = 0`. -/
def edgeRect : Rect := Rect.mk (-20) 100 20 20

/-- A concrete state whose coin list holds `edgeRect` only. -/
def edgeState : GameState :=
  { player := { rect := Rect.mk 0 0 30 50, jump_power := -12, gravity := 1,
                y_velocity := 0, is_grounded := false, jump_count := 0, max_jumps := 2 },
    platforms := [], obstacles := [], coins := [edgeRect],
    last_platform_x := 900, last_platform_y := 420, score := 0, game_started := true }

/-- Counterexample to C7 as stated: the claim says an entity whose right
edge is at `x = 0` is retained, but the code keeps only `item.right > 0`,
so the entity with right edge exactly `0` is pruned. -/
theorem prunePhase_right_zero_pruned :
    edgeRect.right = 0 ∧ edgeRect ∈ edgeState.coins ∧
    edgeRect ∉ (prunePhase edgeState).coins := by
  decide

/-- C7 amended: after the scroll shift, an entity is pruned exactly when its
right edge is at or past the left screen edge (`right ≤ 0`, equivalently it
is retained iff `right > 0`); the removal preserves the relative order of
the survivors (each pruned collection is a sublist of the original); an
entity with right edge at `-1` is pruned, and one with right edge at `0` is
pruned as well (only `right ≥ 1` is retained). -/
theorem prunePhase_spec (s : GameState) :
    ((prunePhase s).platforms.Sublist s.platforms ∧
     (prunePhase s).obstacles.Sublist s.obstacles ∧
     (prunePhase s).coins.Sublist s.coins) ∧
    (∀ r : Rect, (r ∈ (prunePhase s).platforms ↔ r ∈ s.platforms ∧ 0 < r.right) ∧
                 (r ∈ (prunePhase s).obstacles ↔ r ∈ s.obstacles ∧ 0 < r.right) ∧
                 (r ∈ (prunePhase s).coins ↔ r ∈ s.coins ∧ 0 < r.right)) ∧
    (∀ r : Rect, r.right ≤ 0 →
       r ∉ (prunePhase s).platforms ∧ r ∉ (prunePhase s).obstacles ∧
       r ∉ (prunePhase s).coins) ∧
    (prunePhase s).player = s.player ∧ (prunePhase s).score = s.score ∧
    (prunePhase s).game_started = s.game_started := by
  refine ⟨⟨List.filter_sublist _, List.filter_sublist _, List.filter_sublist _⟩,
          ?_, ?_, rfl, rfl, rfl⟩
  · intro r
    simp [prunePhase, List.mem_filter]
  · intro r hr
    simp [prunePhase, List.mem_filter]
    omega

/-- Concrete witness for C7 amended: the entity with right edge `0` is
pruned from the coin list. -/
theorem prunePhase_spec_witness :
    edgeRect.right ≤ 0 ∧ edgeRect ∉ (prunePhase edgeState).coins :=
  ⟨by decide, ((prunePhase_spec edgeState).2.2.1 edgeRect (by decide)).2.2⟩

/-! ### Helper lemmas about the coin loop -/

/-- Proof helper: the cumulative effect of the coin loop on the live coin
list, one snapshot element at a time. -/
def eraseColl (prect : Rect) : List Rect → List Rect → List Rect
  | [], cs => cs
  | c :: rest, cs =>
      if prect.colliderect c then eraseColl prect rest (removeFirst cs c)
      else eraseColl prect rest cs

theorem coinLoop_eq_eraseColl (prect : Rect) (snap : List Rect) :
    ∀ (cs : List Rect) (sc : Int),
      coinLoop prect snap cs sc =
        (eraseColl prect snap cs,
         sc + ((snap.filter (fun c => prect.colliderect c)).length : Int)) := by
  induction snap with
  | nil => intro cs sc; simp [coinLoop, eraseColl]
  | cons c rest ih =>
      intro cs sc
      by_cases h : prect.colliderect c = true
      · simp only [coinLoop, eraseColl, h, if_true, ih, Prod.mk.injEq]
        refine ⟨trivial, ?_⟩
        simp only [List.filter_cons, h, if_true, List.length_cons]
        push_cast
        ring
      · simp only [coinLoop, eraseColl, h, if_false, Bool.false_eq_true, ih]
        simp [List.filter_cons, h]

theorem eraseColl_cons_of_not (prect c' : Rect)
    (h : ¬ prect.colliderect c' = true) (snap : List Rect) :
    ∀ cs : List Rect, eraseColl prect snap (c' :: cs) = c' :: eraseColl prect snap cs := by
  induction snap with
  | nil => intro cs; simp [eraseColl]
  | cons c rest ih =>
      intro cs
      by_cases hc : prect.colliderect c = true
      · have hne : c' ≠ c := by
          intro he
          rw [he] at h
          exact h hc
        simp only [eraseColl, hc, if_true, removeFirst, hne, if_false]
        exact ih (removeFirst cs c)
      · simp only [eraseColl, hc, if_false, Bool.false_eq_true]
        exact ih cs

theorem eraseColl_self (prect : Rect) :
    ∀ l : List Rect, eraseColl prect l l = l.filter (fun c => !(prect.colliderect c)) := by
  intro l
  induction l with
  | nil => simp [eraseColl]
  | cons c rest ih =>
      by_cases hc : prect.colliderect c = true
      · simp only [eraseColl, hc, if_true, removeFirst, List.filter_cons, Bool.not_true,
          if_false]
        simpa using ih
      · rw [eraseColl, if_neg hc, eraseColl_cons_of_not prect c hc rest rest, ih]
        simp [List.filter_cons, hc]

/-! ### C5 -/

/-- C5: the coin-collection loop removes from the live coin list exactly the
coins overlapping the player (survivors keep their order), and the score
grows by exactly 1 per overlapping coin; every overlapping coin is absent
from the resulting list, so no coin can be collected twice. Everything else
in the state is untouched. -/
theorem coinPhase_collects_each_once (s : GameState) :
    (coinPhase s).coins = s.coins.filter (fun c => !(s.player.rect.colliderect c)) ∧
    (coinPhase s).score =
      s.score + ((s.coins.filter (fun c => s.player.rect.colliderect c)).length : Int) ∧
    (∀ c : Rect, s.player.rect.colliderect c = true → c ∉ (coinPhase s).coins) ∧
    (coinPhase s).player = s.player ∧ (coinPhase s).platforms = s.platforms ∧
    (coinPhase s).obstacles = s.obstacles ∧
    (coinPhase s).game_started = s.game_started := by
  have h := coinLoop_eq_eraseColl s.player.rect s.coins s.coins s.score
  have h2 := eraseColl_self s.player.rect s.coins
  have hcoins : (coinPhase s).coins =
      s.coins.filter (fun c => !(s.player.rect.colliderect c)) := by
    simp [coinPhase, h, h2]
  refine ⟨hcoins, by simp [coinPhase, h], ?_, rfl, rfl, rfl, rfl⟩
  intro c hc hmem
  rw [hcoins] at hmem
  have := List.of_mem_filter hmem
  simp [hc] at this

/-- Concrete witness for C5: a state with one overlapping and one
non-overlapping coin; the overlapping coin disappears and the score grows
by exactly one. -/
def coinState : GameState :=
  { player := { rect := Rect.mk 385 370 30 50, jump_power := -12, gravity := 1,
                y_velocity := 0, is_grounded := false, jump_count := 0, max_jumps := 2 },
    platforms := [Rect.mk 325 420 150 10], obstacles := [],
    coins := [Rect.mk 390 380 20 20, Rect.mk 700 300 20 20],
    last_platform_x := 655, last_platform_y := 420, score := 3, game_started := true }

theorem coinPhase_collects_each_once_witness :
    (coinPhase coinState).coins =
      coinState.coins.filter (fun c => !(coinState.player.rect.colliderect c)) ∧
    (coinPhase coinState).score =
      coinState.score +
        ((coinState.coins.filter (fun c => coinState.player.rect.colliderect c)).length : Int) :=
  ⟨(coinPhase_collects_each_once coinState).1,
   (coinPhase_collects_each_once coinState).2.1⟩

/-! ### Helper lemmas about the obstacle loop and `reset_game` -/

theorem obstacleLoop_eq (prect : Rect) (s : GameState) (d : Draws) :
    ∀ l : List Rect,
      obstacleLoop prect s d l =
        if l.any (fun o => prect.colliderect o) then reset_game s d else s := by
  intro l
  induction l with
  | nil => simp [obstacleLoop]
  | cons o rest ih =>
      by_cases h : prect.colliderect o = true
      · simp [obstacleLoop, h]
      · simp [obstacleLoop, h, ih]

/-- Proof helper: `reset_game` written out. `initial_platform_y = 420` sits
inside `[PLATFORM_MIN_Y, PLATFORM_MAX_Y] ∩ [420 ± PLATFORM_Y_DELTA] = [370, 400]`,
a nonempty interval, so the chained `spawn_platform` always succeeds, and its
spawn x `initial_platform_x + PLATFORM_WIDTH + HORIZONTAL_GAP = 655` is past
the quarter-screen buffer `200`, so the obstacle and coin branches are live. -/
theorem reset_game_unfold (s : GameState) (d : Draws) :
    reset_game s d =
      { player := { s.player with
            rect := { s.player.rect with
                x := initial_platform_x + Int.ediv PLATFORM_WIDTH 2 -
                     Int.ediv s.player.rect.w 2,
                y := initial_platform_y - s.player.rect.h },
            y_velocity := 0, is_grounded := true, jump_count := 0 },
        platforms :=
          [Rect.mk initial_platform_x initial_platform_y PLATFORM_WIDTH PLATFORM_HEIGHT,
           Rect.mk (initial_platform_x + PLATFORM_WIDTH + HORIZONTAL_GAP) d.yPick
             PLATFORM_WIDTH PLATFORM_HEIGHT],
        obstacles :=
          if d.obstacleRoll then
            [Rect.mk (initial_platform_x + PLATFORM_WIDTH + HORIZONTAL_GAP + d.obstacleOff)
               (d.yPick - OBSTACLE_H) OBSTACLE_W OBSTACLE_H]
          else [],
        coins :=
          if d.coinRoll then
            [Rect.mk (initial_platform_x + PLATFORM_WIDTH + HORIZONTAL_GAP + d.coinOff)
               (d.yPick - COIN_H - COIN_OFFSET_ABOVE_ROOF) COIN_W COIN_H]
          else [],
        last_platform_x :=
          initial_platform_x + PLATFORM_WIDTH + HORIZONTAL_GAP + PLATFORM_WIDTH +
            HORIZONTAL_GAP,
        last_platform_y := d.yPick, score := 0, game_started := false } := by
  have h : max PLATFORM_MIN_Y (initial_platform_y - PLATFORM_Y_DELTA) ≤
      min PLATFORM_MAX_Y (initial_platform_y + PLATFORM_Y_DELTA) := by decide
  simp only [reset_game]
  rw [spawn_platform_of_le _ _ _ _ _ _ h]
  have hb : (decide (Int.ediv SCREEN_WIDTH 4 <
      initial_platform_x + PLATFORM_WIDTH + HORIZONTAL_GAP)) = true := by decide
  simp only [hb, Bool.true_and, List.nil_append, List.cons_append, List.singleton_append]

/-! ### C2 -/

/-- A concrete Playing state whose player overlaps the single obstacle. -/
def hitState : GameState :=
  { player := { rect := Rect.mk 385 370 30 50, jump_power := -12, gravity := 1,
                y_velocity := 0, is_grounded := false, jump_count := 2, max_jumps := 2 },
    platforms := [Rect.mk 325 420 150 10],
    obstacles := [Rect.mk 390 390 30 30],
    coins := [],
    last_platform_x := 655, last_platform_y := 420, score := 7, game_started := true }

/-- The random draws consumed by the reset triggered in `hitState`. -/
def hitDraws : Draws := Draws.mk 380 true 20 true 30

/-- Counterexample to C2 as stated: after the reset triggered by an obstacle
overlap in a Playing state, the platform list does NOT hold exactly one
platform - `reset_game` chains a `spawn_platform` call, so two platforms are
present. -/
theorem obstacle_reset_not_one_platform :
    hitState.game_started = true ∧
    Rect.mk 390 390 30 30 ∈ hitState.obstacles ∧
    hitState.player.rect.colliderect (Rect.mk 390 390 30 30) = true ∧
    ¬ (obstaclePhase hitDraws hitState).platforms.length = 1 := by
  decide

/-- C2 amended: an obstacle overlap while Playing makes the tick's obstacle
pass perform the reset: the state becomes NotStarted with score 0, the
platform list holds exactly TWO platforms (the initial one plus the chained
spawn), and the player is grounded on the first of them (bottom edge on its
top `initial_platform_y`, velocity 0, jump count 0). -/
theorem obstacle_hit_resets (s : GameState) (d : Draws)
    (_hs : s.game_started = true)
    (ho : ∃ o ∈ s.obstacles, s.player.rect.colliderect o = true) :
    obstaclePhase d s = reset_game s d ∧
    (obstaclePhase d s).game_started = false ∧
    (obstaclePhase d s).score = 0 ∧
    (obstaclePhase d s).platforms =
      [Rect.mk initial_platform_x initial_platform_y PLATFORM_WIDTH PLATFORM_HEIGHT,
       Rect.mk (initial_platform_x + PLATFORM_WIDTH + HORIZONTAL_GAP) d.yPick
         PLATFORM_WIDTH PLATFORM_HEIGHT] ∧
    (obstaclePhase d s).platforms.length = 2 ∧
    (obstaclePhase d s).player.rect.bottom = initial_platform_y ∧
    (obstaclePhase d s).player.y_velocity = 0 ∧
    (obstaclePhase d s).player.is_grounded = true ∧
    (obstaclePhase d s).player.jump_count = 0 := by
  have hany : s.obstacles.any (fun o => s.player.rect.colliderect o) = true := by
    obtain ⟨o, hmem, hc⟩ := ho
    exact List.any_eq_true.mpr ⟨o, hmem, hc⟩
  have he : obstaclePhase d s = reset_game s d := by
    rw [obstaclePhase, obstacleLoop_eq, hany]
    rfl
  rw [he, reset_game_unfold s d]
  refine ⟨rfl, rfl, rfl, rfl, rfl, ?_, rfl, rfl, rfl⟩
  simp [Rect.bottom]

/-- Concrete witness for C2 amended, at `hitState`. -/
theorem obstacle_hit_resets_witness :
    hitState.game_started = true ∧
    (∃ o ∈ hitState.obstacles, hitState.player.rect.colliderect o = true) ∧
    (obstaclePhase hitDraws hitState).game_started = false ∧
    (obstaclePhase hitDraws hitState).score = 0 ∧
    (obstaclePhase hitDraws hitState).platforms.length = 2 ∧
    (obstaclePhase hitDraws hitState).player.jump_count = 0 := by
  have h := obstacle_hit_resets hitState hitDraws rfl
    ⟨Rect.mk 390 390 30 30, by decide, by decide⟩
  exact ⟨rfl, ⟨Rect.mk 390 390 30 30, by decide, by decide⟩,
    h.2.1, h.2.2.1, h.2.2.2.2.1, h.2.2.2.2.2.2.2.2⟩

/-! ### C9 -/

/-- C9: after any `reset_game` (its chained spawn always succeeds, since the
interval drawn from `initial_platform_y = 420` is `[370, 400]`), the platform
list holds exactly two platforms - the initial one at
`(initial_platform_x, initial_platform_y) = (325, 420)` and the chained
spawn at `x = 655`; `655` exceeds the quarter-screen buffer
`SCREEN_WIDTH // 4 = 200`, so the obstacle and coin branches are live during
reset, and for draws whose rolls succeed the obstacle and/or coin lists are
non-empty immediately after reset, in the NotStarted state. -/
theorem reset_game_seeds_two_platforms (s : GameState) (d : Draws) :
    (reset_game s d).platforms =
      [Rect.mk initial_platform_x initial_platform_y PLATFORM_WIDTH PLATFORM_HEIGHT,
       Rect.mk 655 d.yPick PLATFORM_WIDTH PLATFORM_HEIGHT] ∧
    (reset_game s d).platforms.length = 2 ∧
    initial_platform_x = 325 ∧ initial_platform_y = 420 ∧
    initial_platform_x + PLATFORM_WIDTH + HORIZONTAL_GAP = 655 ∧
    Int.ediv SCREEN_WIDTH 4 = 200 ∧ (Int.ediv SCREEN_WIDTH 4 < 655) ∧
    (reset_game s d).game_started = false ∧
    (d.obstacleRoll = true →
       (reset_game s d).obstacles =
         [Rect.mk (655 + d.obstacleOff) (d.yPick - OBSTACLE_H) OBSTACLE_W OBSTACLE_H]) ∧
    (d.coinRoll = true →
       (reset_game s d).coins =
         [Rect.mk (655 + d.coinOff) (d.yPick - COIN_H - COIN_OFFSET_ABOVE_ROOF) COIN_W COIN_H]) ∧
    (∃ d2 : Draws, (reset_game s d2).obstacles ≠ [] ∧ (reset_game s d2).coins ≠ [] ∧
       (reset_game s d2).game_started = false) := by
  have h655 : initial_platform_x + PLATFORM_WIDTH + HORIZONTAL_GAP = (655 : Int) := by decide
  refine ⟨?_, ?_, by decide, by decide, h655, by decide, by decide, ?_, ?_, ?_, ?_⟩
  · rw [reset_game_unfold s d]
    simp only [h655]
  · rw [reset_game_unfold s d]
    rfl
  · rw [reset_game_unfold s d]
  · intro hroll
    rw [reset_game_unfold s d]
    simp only [hroll, if_true, h655]
  · intro hroll
    rw [reset_game_unfold s d]
    simp only [hroll, if_true, h655]
  · refine ⟨Draws.mk 380 true 20 true 30, ?_, ?_, ?_⟩ <;>
      rw [reset_game_unfold s (Draws.mk 380 true 20 true 30)] <;> simp

/-- Concrete witness for C9: draws whose obstacle and coin rolls both
succeed populate both lists during the reset. -/
theorem reset_game_seeds_two_platforms_witness :
    hitDraws.obstacleRoll = true ∧
    (reset_game hitState hitDraws).platforms.length = 2 ∧
    (reset_game hitState hitDraws).obstacles =
      [Rect.mk (655 + hitDraws.obstacleOff) (hitDraws.yPick - OBSTACLE_H)
         OBSTACLE_W OBSTACLE_H] ∧
    (reset_game hitState hitDraws).game_started = false := by
  have h := reset_game_seeds_two_platforms hitState hitDraws
  exact ⟨rfl, h.2.1, h.2.2.2.2.2.2.2.2.1 rfl, h.2.2.2.2.2.2.2.1⟩

/-! ### C8 -/

/-- C8: reset is idempotent relative to one fixed outcome of the random
source: running `reset_game` twice in a row (with the same draws, the
deterministic-source reading the spec's concurrency section prescribes for
tests) yields exactly the state a single call yields - `reset_game` reads
nothing of the incoming state but the player rectangle's width and height,
which it preserves. -/
theorem reset_game_idempotent (s : GameState) (d : Draws) :
    reset_game (reset_game s d) d = reset_game s d := by
  rw [reset_game_unfold s d, reset_game_unfold]

/-! ### C10 -/

/-- C10: a space press while not started only flips the started flag - the
player, score, frontier and all three entity lists are untouched; a space
press while started with an exhausted jump count changes nothing at all. -/
theorem handleSpace_start_only_starts (s : GameState) :
    (s.game_started = false →
       handleSpace s = { s with game_started := true } ∧
       (handleSpace s).player = s.player ∧
       (handleSpace s).score = s.score ∧
       (handleSpace s).platforms = s.platforms ∧
       (handleSpace s).obstacles = s.obstacles ∧
       (handleSpace s).coins = s.coins ∧
       (handleSpace s).last_platform_x = s.last_platform_x ∧
       (handleSpace s).last_platform_y = s.last_platform_y ∧
       (handleSpace s).game_started = true) ∧
    (s.game_started = true → s.player.max_jumps ≤ s.player.jump_count →
       handleSpace s = s) := by
  constructor
  · intro h
    simp [handleSpace, h]
  · intro h hj
    have hlt : ¬ s.player.jump_count < s.player.max_jumps := not_lt.mpr hj
    simp [handleSpace, h, hlt]

/-- A concrete NotStarted state resting on the initial platform. -/
def idleState : GameState :=
  { player := { rect := Rect.mk 385 370 30 50, jump_power := -12, gravity := 1,
                y_velocity := 0, is_grounded := true, jump_count := 0, max_jumps := 2 },
    platforms := [Rect.mk 325 420 150 10], obstacles := [], coins := [],
    last_platform_x := 655, last_platform_y := 420, score := 0, game_started := false }

/-- Concrete witness for C10: a space press in `idleState` only starts the
game; a space press in `hitState` (started, jump count at the maximum) is a
no-op. -/
theorem handleSpace_start_only_starts_witness :
    idleState.game_started = false ∧
    (handleSpace idleState).player = idleState.player ∧
    (handleSpace idleState).game_started = true ∧
    hitState.game_started = true ∧
    hitState.player.max_jumps ≤ hitState.player.jump_count ∧
    handleSpace hitState = hitState := by
  have h := (handleSpace_start_only_starts idleState).1 rfl
  have h2 := (handleSpace_start_only_starts hitState).2 rfl (by decide)
  exact ⟨rfl, h.2.1, h.2.2.2.2.2.2.2.2, rfl, by decide, h2⟩

/-! ### Helper lemmas: how each tick phase treats the player's jump count -/

theorem landingLoop_jump_count (p : Player) (ob : Int) :
    ∀ l : List Rect,
      (landingLoop p ob l).jump_count = p.jump_count ∨ (landingLoop p ob l).jump_count = 0 := by
  intro l
  induction l with
  | nil => exact Or.inl rfl
  | cons pl rest ih =>
      by_cases h : (p.rect.colliderect pl && decide (ob ≤ pl.top)) = true
      · rw [landingLoop, if_pos h]
        exact Or.inr rfl
      · rw [landingLoop, if_neg h]
        exact ih

theorem landingLoop_max_jumps (p : Player) (ob : Int) :
    ∀ l : List Rect, (landingLoop p ob l).max_jumps = p.max_jumps := by
  intro l
  induction l with
  | nil => rfl
  | cons pl rest ih =>
      by_cases h : (p.rect.colliderect pl && decide (ob ≤ pl.top)) = true
      · rw [landingLoop, if_pos h]
      · rw [landingLoop, if_neg h]
        exact ih

theorem movePhase_jump_count (dt : ℚ) (s : GameState) :
    (movePhase dt s).player.jump_count = s.player.jump_count ∨
    (movePhase dt s).player.jump_count = 0 := by
  simp only [movePhase]
  split
  · exact landingLoop_jump_count _ _ _
  · exact Or.inl rfl

theorem movePhase_max_jumps (dt : ℚ) (s : GameState) :
    (movePhase dt s).player.max_jumps = s.player.max_jumps := by
  simp only [movePhase]
  split
  · exact landingLoop_max_jumps _ _ _
  · rfl

theorem scrollPhase_player (dt : ℚ) (s : GameState) :
    (scrollPhase dt s).player = s.player := rfl

theorem spawnPhase_player (d : Draws) (s : GameState) :
    (spawnPhase d s).player = s.player := by
  simp only [spawnPhase]
  split <;> rfl

theorem prunePhase_player (s : GameState) :
    (prunePhase s).player = s.player := rfl

theorem coinPhase_player_eq (s : GameState) :
    (coinPhase s).player = s.player := rfl

theorem reset_game_jump_count (s : GameState) (d : Draws) :
    (reset_game s d).player.jump_count = 0 := by
  rw [reset_game_unfold]

theorem reset_game_max_jumps (s : GameState) (d : Draws) :
    (reset_game s d).player.max_jumps = s.player.max_jumps := by
  rw [reset_game_unfold]

theorem obstaclePhase_jump_count (d : Draws) (s : GameState) :
    (obstaclePhase d s).player.jump_count = s.player.jump_count ∨
    (obstaclePhase d s).player.jump_count = 0 := by
  rw [obstaclePhase, obstacleLoop_eq]
  split
  · exact Or.inr (reset_game_jump_count s d)
  · exact Or.inl rfl

theorem obstaclePhase_max_jumps (d : Draws) (s : GameState) :
    (obstaclePhase d s).player.max_jumps = s.player.max_jumps := by
  rw [obstaclePhase, obstacleLoop_eq]
  split
  · exact reset_game_max_jumps s d
  · rfl

theorem fellPhase_jump_count (d : Draws) (s : GameState) :
    (fellPhase d s).player.jump_count = s.player.jump_count ∨
    (fellPhase d s).player.jump_count = 0 := by
  rw [fellPhase]
  split
  · exact Or.inr (reset_game_jump_count s d)
  · exact Or.inl rfl

theorem fellPhase_max_jumps (d : Draws) (s : GameState) :
    (fellPhase d s).player.max_jumps = s.player.max_jumps := by
  rw [fellPhase]
  split
  · exact reset_game_max_jumps s d
  · rfl

theorem startedTick_jump_count (dt : ℚ) (dS dO dF : Draws) (s : GameState) :
    (startedTick dt dS dO dF s).player.jump_count = s.player.jump_count ∨
    (startedTick dt dS dO dF s).player.jump_count = 0 := by
  rw [startedTick]
  split
  · set s1 := movePhase dt s with hs1
    set s5 := coinPhase (prunePhase (spawnPhase dS (scrollPhase dt s1))) with hs5
    have h5 : s5.player = s1.player := by
      rw [hs5, coinPhase_player_eq, prunePhase_player, spawnPhase_player, scrollPhase_player]
    set s6 := obstaclePhase dO s5 with hs6
    have h6 := obstaclePhase_jump_count dO s5
    have h7 := fellPhase_jump_count dF s6
    have h1 := movePhase_jump_count dt s
    rcases h7 with h7 | h7
    · rw [h7, hs6]
      rcases h6 with h6 | h6
      · rw [h6, h5, hs1]
        exact h1
      · exact Or.inr h6
    · exact Or.inr h7
  · exact Or.inl rfl

theorem startedTick_max_jumps (dt : ℚ) (dS dO dF : Draws) (s : GameState) :
    (startedTick dt dS dO dF s).player.max_jumps = s.player.max_jumps := by
  rw [startedTick]
  split
  · set s1 := movePhase dt s with hs1
    set s5 := coinPhase (prunePhase (spawnPhase dS (scrollPhase dt s1))) with hs5
    have h5 : s5.player = s1.player := by
      rw [hs5, coinPhase_player_eq, prunePhase_player, spawnPhase_player, scrollPhase_player]
    rw [fellPhase_max_jumps, obstaclePhase_max_jumps, h5, movePhase_max_jumps]
  · rfl

/-! ### C4 -/

/-- Counterexample to C4 as stated: the claim says landing on a platform is
the only operation that resets the jump count to 0, but the reset performed
on an obstacle hit also zeroes it - here the player (jump count 2) overlaps
no platform at all, yet after the obstacle pass the jump count is 0. -/
theorem jump_count_zeroed_without_landing :
    hitState.player.jump_count = 2 ∧
    hitState.platforms = [Rect.mk 325 420 150 10] ∧
    hitState.player.rect.colliderect (Rect.mk 325 420 150 10) = false ∧
    (obstaclePhase hitDraws hitState).player.jump_count = 0 := by
  decide

/-- C4 amended: the jump count always stays in `[0, max_jumps]`; a jump
input is accepted only when `jump_count < max_jumps` and then sets the
velocity to the jump impulse, increments the count by exactly 1 and clears
the grounded flag; the accepted jump is the only operation that increases
the count - a full Playing tick leaves it unchanged or sets it to 0, the
latter happening only in landing resolution or in the reset run on obstacle
hit / fall-off (`reset_game` also zeroes it, which the original claim
omitted). -/
theorem jump_count_discipline (s : GameState) (dt : ℚ) (dS dO dF : Draws) :
    (s.game_started = true → s.player.max_jumps ≤ s.player.jump_count →
       handleSpace s = s) ∧
    (s.game_started = true → s.player.jump_count < s.player.max_jumps →
       (handleSpace s).player.y_velocity = s.player.jump_power ∧
       (handleSpace s).player.jump_count = s.player.jump_count + 1 ∧
       (handleSpace s).player.is_grounded = false) ∧
    (0 ≤ s.player.jump_count → s.player.jump_count ≤ s.player.max_jumps →
       (0 ≤ (handleSpace s).player.jump_count ∧
        (handleSpace s).player.jump_count ≤ (handleSpace s).player.max_jumps) ∧
       (0 ≤ (startedTick dt dS dO dF s).player.jump_count ∧
        (startedTick dt dS dO dF s).player.jump_count ≤
          (startedTick dt dS dO dF s).player.max_jumps)) ∧
    ((startedTick dt dS dO dF s).player.jump_count = s.player.jump_count ∨
     (startedTick dt dS dO dF s).player.jump_count = 0) := by
  have htick := startedTick_jump_count dt dS dO dF s
  have hmax := startedTick_max_jumps dt dS dO dF s
  refine ⟨?_, ?_, ?_, htick⟩
  · intro h hj
    have hlt : ¬ s.player.jump_count < s.player.max_jumps := not_lt.mpr hj
    simp [handleSpace, h, hlt]
  · intro h hj
    simp [handleSpace, h, hj]
  · intro h0 hm
    constructor
    · by_cases hst : s.game_started = true
      · by_cases hj : s.player.jump_count < s.player.max_jumps
        · simp only [handleSpace, hst, Bool.not_true, Bool.false_eq_true, if_false, hj,
            if_true]
          omega
        · simp only [handleSpace, hst, Bool.not_true, Bool.false_eq_true, if_false, hj]
          exact ⟨h0, hm⟩
      · have hst2 : s.game_started = false := by
          cases hb : s.game_started
          · rfl
          · exact absurd hb hst
        simp only [handleSpace, hst2, Bool.not_false, if_true]
        exact ⟨h0, hm⟩
    · rw [hmax]
      rcases htick with ht | ht <;> rw [ht]
      · exact ⟨h0, hm⟩
      · exact ⟨le_refl 0, le_trans h0 hm⟩

/-- Concrete witness for C4 amended, at `hitState` (started, jump count at
the maximum): the space press is a no-op and a tick never increases the
count. -/
theorem jump_count_discipline_witness :
    hitState.game_started = true ∧
    hitState.player.max_jumps ≤ hitState.player.jump_count ∧
    (0 ≤ hitState.player.jump_count ∧
     hitState.player.jump_count ≤ hitState.player.max_jumps) ∧
    handleSpace hitState = hitState ∧
    ((startedTick 0 hitDraws hitDraws hitDraws hitState).player.jump_count =
        hitState.player.jump_count ∨
     (startedTick 0 hitDraws hitDraws hitDraws hitState).player.jump_count = 0) := by
  have h := jump_count_discipline hitState 0 hitDraws hitDraws hitDraws
  exact ⟨rfl, by decide, by decide, h.1 rfl (by decide), h.2.2.2⟩

/-! ### C3 -/

/-- The player after this tick's integration and move, before the landing
check: velocity updated by gravity, rectangle moved by the truncated
displacement, grounded cleared. -/
def integratedPlayer (s : GameState) (dt : ℚ) : Player :=
  let p := s.player
  let v1 := p.y_velocity + p.gravity * dt * (FPS : ℚ)
  { p with y_velocity := v1,
           rect := { p.rect with y := p.rect.y + pyInt (v1 * dt * (FPS : ℚ)) },
           is_grounded := false }

/-- The landing snap: bottom on the platform's top, velocity zeroed,
grounded set, jump count reset. -/
def landedPlayer (p : Player) (pl : Rect) : Player :=
  { p with rect := { p.rect with y := pl.top - p.rect.h },
           y_velocity := 0, is_grounded := true, jump_count := 0 }

theorem landingLoop_eq_find (p : Player) (ob : Int) :
    ∀ l : List Rect,
      landingLoop p ob l =
        match l.find? (fun pl => p.rect.colliderect pl && decide (ob ≤ pl.top)) with
        | none => p
        | some pl => landedPlayer p pl := by
  intro l
  induction l with
  | nil => rfl
  | cons pl rest ih =>
      by_cases h : (p.rect.colliderect pl && decide (ob ≤ pl.top)) = true
      · rw [landingLoop, if_pos h]
        simp only [List.find?, h]
        rfl
      · rw [landingLoop, if_neg h]
        rw [ih]
        have hb : (p.rect.colliderect pl && decide (ob ≤ pl.top)) = false :=
          Bool.eq_false_iff.mpr h
        simp only [List.find?, hb]

/-- C3: landing resolution runs only on a positive vertical displacement
this tick (`dy > 0`); then the player becomes the landed snap on the FIRST
platform (in spawn order) that overlaps the moved rectangle and whose top
was at or below the player's pre-move bottom edge, with no later platform
considered (`List.find?` takes the first match); when no platform
qualifies, landing resolution changes nothing beyond the move itself. The
phase touches no other state component. -/
theorem movePhase_landing_resolution (s : GameState) (dt : ℚ) :
    (¬ 0 < (s.player.y_velocity + s.player.gravity * dt * (FPS : ℚ)) * dt * (FPS : ℚ) →
       (movePhase dt s).player = integratedPlayer s dt) ∧
    (0 < (s.player.y_velocity + s.player.gravity * dt * (FPS : ℚ)) * dt * (FPS : ℚ) →
       (movePhase dt s).player =
         (match s.platforms.find? (fun pl =>
             (integratedPlayer s dt).rect.colliderect pl &&
             decide (s.player.rect.bottom ≤ pl.top)) with
          | none => integratedPlayer s dt
          | some pl => landedPlayer (integratedPlayer s dt) pl)) ∧
    (movePhase dt s).platforms = s.platforms ∧
    (movePhase dt s).obstacles = s.obstacles ∧
    (movePhase dt s).coins = s.coins ∧
    (movePhase dt s).score = s.score ∧
    (movePhase dt s).game_started = s.game_started := by
  refine ⟨?_, ?_, rfl, rfl, rfl, rfl, rfl⟩
  · intro h
    simp only [movePhase]
    rw [if_neg h]
    rfl
  · intro h
    simp only [movePhase]
    rw [if_pos h, landingLoop_eq_find]
    rfl

/-- A concrete Playing state falling toward the initial platform: with
`dt = 1/60` the displacement is `10 > 0`, the pre-move bottom `415` is above
the roof `420`, and the moved rectangle overlaps the platform, so the
engine lands the player. -/
def fallState : GameState :=
  { player := { rect := Rect.mk 385 365 30 50, jump_power := -12, gravity := 1,
                y_velocity := 9, is_grounded := false, jump_count := 1, max_jumps := 2 },
    platforms := [Rect.mk 325 420 150 10], obstacles := [], coins := [],
    last_platform_x := 655, last_platform_y := 420, score := 0, game_started := true }

/-- The displacement of `fallState` at `dt = 1/60` is positive
(`(9 + 1 * (1/60) * 60) * (1/60) * 60 = 10`). -/
theorem fallState_dy_pos :
    0 < (fallState.player.y_velocity + fallState.player.gravity * ((1 : ℚ)/60) * (FPS : ℚ)) *
          ((1 : ℚ)/60) * (FPS : ℚ) := by
  norm_num [fallState, FPS]

/-- Concrete witness for C3, at `fallState` with `dt = 1/60`. -/
theorem movePhase_landing_resolution_witness :
    (0 < (fallState.player.y_velocity + fallState.player.gravity * ((1 : ℚ)/60) * (FPS : ℚ)) *
          ((1 : ℚ)/60) * (FPS : ℚ)) ∧
    (movePhase ((1 : ℚ)/60) fallState).player =
      (match fallState.platforms.find? (fun pl =>
          (integratedPlayer fallState ((1 : ℚ)/60)).rect.colliderect pl &&
          decide (fallState.player.rect.bottom ≤ pl.top)) with
       | none => integratedPlayer fallState ((1 : ℚ)/60)
       | some pl => landedPlayer (integratedPlayer fallState ((1 : ℚ)/60)) pl) :=
  ⟨fallState_dy_pos,
   (movePhase_landing_resolution fallState ((1 : ℚ)/60)).2.1 fallState_dy_pos⟩

end RooftopRunner
